import Mathlib

/-!
# CultivasiaCRM — shallow embedding and verification

This file embeds the call/transaction workflow of the CultivasiaCRM
telemarketing system in Lean 4 and proves properties of it.

Modelling conventions:
* Timestamps are integers counting milliseconds from a fixed local midnight,
  so that JavaScript `setHours(0,0,0,0)` becomes flooring to a multiple of
  `dayMs`.  Daylight-saving shifts are not modelled.
* SQL `decimal` columns are rationals (`ℚ`).  The JavaScript layer receives
  them as decimal strings, which are never empty; hence a non-null decimal
  is always truthy, which `jsOrPrice` relies on.
* Nullable columns are `Option`-valued.  A client-side partial update object
  (`TxnUpdate`) distinguishes "field absent" (`none`) from "field set to
  null" (`some none`), mirroring the JavaScript object spread used by
  `DatabaseStorage.updateCall` (`set { ...updates, updatedAt }`), which
  leaves absent columns untouched.
* Database queries over tables become pure functions over Lean lists; the
  row order of a list is the insertion order of the table.
-/

namespace CultivasiaCRM

/-- The `call_status` pgEnum from `shared/schema.ts`:
`['new', 'in_progress', 'called', 'unattended', 'completed']`. -/
def callStatusEnum : List String :=
  ["new", "in_progress", "called", "unattended", "completed"]

/-- The status validation performed by `drizzle-zod`'s
`createInsertSchema(transactions)` (and hence `updateTransactionSchema`):
a submitted status must be one of the enum variants. -/
def isValidCallStatus (s : String) : Bool :=
  callStatusEnum.contains s

/-- JavaScript truthiness of a nullable text column: `null` and the empty
string are falsy, every other string is truthy. -/
def strTruthy : Option String → Bool
  | none => false
  | some s => !(s == "")

/-- JavaScript `a || b` where `a` is a nullable string and `b` a string. -/
def jsOrStr (a : Option String) (b : String) : String :=
  match a with
  | none => b
  | some s => if s = "" then b else s

/-- JavaScript `a || b` where `a` is a nullable decimal column and `b` a
decimal.  Decimal strings coming from the database are never empty, so a
non-null decimal is always truthy. -/
def jsOrPrice (a : Option ℚ) (b : ℚ) : ℚ :=
  a.getD b

/-- JavaScript `remarks || null`: an absent or empty remark is stored as
null, anything else verbatim. -/
def jsOrNullStr : Option String → Option String
  | none => none
  | some s => if s = "" then none else some s

/-- A row of the `users` table (`shared/schema.ts`). -/
structure User where
  id : String
  username : String
  password : String
  role : String
  isActive : Bool
  createdAt : ℤ
deriving DecidableEq

/-- A row of the `products` table (`shared/schema.ts`). -/
structure Product where
  id : String
  sku : String
  name : String
  price : ℚ
  units : ℤ
  isActive : Bool
  createdAt : ℤ
deriving DecidableEq

/-- A row of the merged call/transaction table (`transactions` in
`shared/schema.ts`).  The table has exactly these columns; in particular
it has *no* `call_duration` column, even though the client submits a
`callDuration` key — that key matches no column and is dropped. -/
structure Txn where
  id : String
  date : ℤ
  customerName : String
  phone : String
  awb : Option String
  orderSku : String
  quantity : ℤ
  currentPrice : ℚ
  shippingFee : Option ℚ
  address : Option String
  status : String
  callType : String
  agentId : Option String
  callStartedAt : Option ℤ
  callEndedAt : Option ℤ
  callRemarks : Option String
  originalOrderSku : Option String
  originalPrice : Option ℚ
  newOrderSku : Option String
  newPrice : Option ℚ
  revenue : Option ℚ
  isUpsell : Bool
  createdAt : ℤ
  updatedAt : ℤ
deriving DecidableEq

/-- A client-side partial update object for a call/transaction record,
exactly as the handlers in `call-list.tsx` build it — including the
`callDuration` key, which corresponds to no column of the table.
`none` means the field is absent from the update; for a nullable column,
`some none` means the field is explicitly set to null. -/
structure TxnUpdate where
  orderSku : Option String := none
  currentPrice : Option ℚ := none
  status : Option String := none
  agentId : Option (Option String) := none
  callStartedAt : Option (Option ℤ) := none
  callEndedAt : Option (Option ℤ) := none
  callDuration : Option (Option ℤ) := none
  callRemarks : Option (Option String) := none
  originalOrderSku : Option (Option String) := none
  originalPrice : Option (Option ℚ) := none
  newOrderSku : Option (Option String) := none
  newPrice : Option (Option ℚ) := none
  revenue : Option (Option ℚ) := none
  isUpsell : Option Bool := none
deriving DecidableEq

/-- The partial-update semantics of `DatabaseStorage.updateCall`
(`unnamed/part_000`, lines 185–192): each table column present in the
update object overwrites the stored value, `updatedAt` is set to the
current time, and every absent column keeps its prior value.  The
update's `callDuration` key matches no column of the table (the zod
object of `updateTransactionSchema` strips unknown keys and drizzle's
`set` writes only columns), so it is silently dropped. -/
def applyUpdate (c : Txn) (u : TxnUpdate) (now : ℤ) : Txn :=
  { c with
    orderSku := u.orderSku.getD c.orderSku
    currentPrice := u.currentPrice.getD c.currentPrice
    status := u.status.getD c.status
    agentId := u.agentId.getD c.agentId
    callStartedAt := u.callStartedAt.getD c.callStartedAt
    callEndedAt := u.callEndedAt.getD c.callEndedAt
    callRemarks := u.callRemarks.getD c.callRemarks
    originalOrderSku := u.originalOrderSku.getD c.originalOrderSku
    originalPrice := u.originalPrice.getD c.originalPrice
    newOrderSku := u.newOrderSku.getD c.newOrderSku
    newPrice := u.newPrice.getD c.newPrice
    revenue := u.revenue.getD c.revenue
    isUpsell := u.isUpsell.getD c.isUpsell
    updatedAt := now }

/-- The validation the update route applies before storing anything
(`updateTransactionSchema` in `shared/schema.ts`): drizzle-zod renders
the `status` column as an enum of the `call_status` variants, so an
update carrying a status outside the enum fails to parse. -/
def updateTxnValid (u : TxnUpdate) : Bool :=
  match u.status with
  | none => true
  | some s => isValidCallStatus s

/-- The persisted outcome of a client `PUT` of an update object: a
validation failure rejects the update as a whole (HTTP 400, nothing is
written, the stored record is unchanged); otherwise the partial merge of
`applyUpdate` is stored. -/
def putTransaction (c : Txn) (u : TxnUpdate) (now : ℤ) : Txn :=
  if updateTxnValid u then applyUpdate c u now else c

/-- The update object built by `handleAcceptUpsell`
(`client/src/pages/call-list.tsx`, lines 356–399).  `customPrice` is the
manual price override; when absent, the catalog price of the product with
the requested SKU is used (`newProduct?.price || '0'`). -/
def acceptUpsellUpdates (call : Txn) (newProductSku : String)
    (customPrice : Option ℚ) (products : List Product) : TxnUpdate :=
  let newProduct := products.find? (fun p => p.sku == newProductSku)
  let finalPrice : ℚ :=
    match customPrice with
    | some p => p
    | none =>
      match newProduct with
      | some prod => prod.price
      | none => 0
  { originalOrderSku := some (some (jsOrStr call.originalOrderSku call.orderSku))
    originalPrice := some (some (jsOrPrice call.originalPrice call.currentPrice))
    orderSku := some newProductSku
    currentPrice := some finalPrice
    revenue := some (some (finalPrice - jsOrPrice call.originalPrice call.currentPrice))
    isUpsell := some true
    status := some "in_progress" }

/-- `handleAcceptUpsell` applied through the update route and storage
layer: build the update object, validate, and merge it into the record. -/
def handleAcceptUpsell (call : Txn) (newProductSku : String)
    (customPrice : Option ℚ) (products : List Product) (now : ℤ) : Txn :=
  putTransaction call (acceptUpsellUpdates call newProductSku customPrice products) now

/-- The order test of `handleEndCall`:
`freshCall?.orderSku || freshCall?.isUpsell` — an order exists when the
(non-null) order SKU is non-empty or the upsell flag is set. -/
def hasOrder (c : Txn) : Bool :=
  !(c.orderSku == "") || c.isUpsell

/-- The update object built by `handleEndCall`
(`client/src/pages/call-list.tsx`, lines 192–242), success path: when an
order exists the order fields are re-sent unchanged, `isUpsell` is forced
to true and the status becomes `completed`; otherwise the status becomes
`called`.  Both branches record `callEndedAt`, `callDuration` and the
optional remarks (`remarks || null`). -/
def endCallUpdates (c : Txn) (remarks : Option String)
    (finalDuration : ℤ) (now : ℤ) : TxnUpdate :=
  if hasOrder c then
    { originalOrderSku := some c.originalOrderSku
      originalPrice := some c.originalPrice
      orderSku := some c.orderSku
      currentPrice := some c.currentPrice
      revenue := some c.revenue
      isUpsell := some true
      status := some "completed"
      callEndedAt := some (some now)
      callDuration := some (some finalDuration)
      callRemarks := some (jsOrNullStr remarks) }
  else
    { status := some "called"
      callEndedAt := some (some now)
      callDuration := some (some finalDuration)
      callRemarks := some (jsOrNullStr remarks) }

/-- `handleEndCall` applied through the update route and storage layer. -/
def handleEndCall (c : Txn) (remarks : Option String)
    (finalDuration : ℤ) (now : ℤ) : Txn :=
  putTransaction c (endCallUpdates c remarks finalDuration now) now

/-- The update object built by `handleMarkUnattended`
(`client/src/pages/call-list.tsx`, lines 244–285): order fields are
re-sent unchanged when `call?.originalOrderSku` is truthy, and the status
becomes `unattended` with end-of-call bookkeeping. -/
def markUnattendedUpdates (c : Txn) (remarks : Option String)
    (finalDuration : ℤ) (now : ℤ) : TxnUpdate :=
  let base : TxnUpdate :=
    { status := some "unattended"
      callEndedAt := some (some now)
      callDuration := some (some finalDuration)
      callRemarks := some (jsOrNullStr remarks) }
  if strTruthy c.originalOrderSku then
    { base with
      originalOrderSku := some c.originalOrderSku
      originalPrice := some c.originalPrice
      orderSku := some c.orderSku
      currentPrice := some c.currentPrice
      revenue := some c.revenue
      isUpsell := some c.isUpsell }
  else base

/-- `handleMarkUnattended` applied through the update route and storage
layer. -/
def handleMarkUnattended (c : Txn) (remarks : Option String)
    (finalDuration : ℤ) (now : ℤ) : Txn :=
  putTransaction c (markUnattendedUpdates c remarks finalDuration now) now

/-- The update object built by `handleMarkCallback`
(`client/src/pages/call-list.tsx`, lines 287–328): identical to
`handleMarkUnattended` except that the requested status is `callback`. -/
def markCallbackUpdates (c : Txn) (remarks : Option String)
    (finalDuration : ℤ) (now : ℤ) : TxnUpdate :=
  let base : TxnUpdate :=
    { status := some "callback"
      callEndedAt := some (some now)
      callDuration := some (some finalDuration)
      callRemarks := some (jsOrNullStr remarks) }
  if strTruthy c.originalOrderSku then
    { base with
      originalOrderSku := some c.originalOrderSku
      originalPrice := some c.originalPrice
      orderSku := some c.orderSku
      currentPrice := some c.currentPrice
      revenue := some c.revenue
      isUpsell := some c.isUpsell }
  else base

/-- `handleMarkCallback` applied through the update route and storage
layer.  Its requested status `callback` is outside the schema enum, so
the validation rejects the whole update. -/
def handleMarkCallback (c : Txn) (remarks : Option String)
    (finalDuration : ℤ) (now : ℤ) : Txn :=
  putTransaction c (markCallbackUpdates c remarks finalDuration now) now

theorem updateTxnValid_acceptUpsell (c : Txn) (sku : String) (cp : Option ℚ)
    (prods : List Product) :
    updateTxnValid (acceptUpsellUpdates c sku cp prods) = true :=
  rfl

theorem updateTxnValid_endCall (c : Txn) (remarks : Option String)
    (dur now : ℤ) :
    updateTxnValid (endCallUpdates c remarks dur now) = true := by
  unfold updateTxnValid endCallUpdates
  split_ifs <;> rfl

theorem updateTxnValid_markUnattended (c : Txn) (remarks : Option String)
    (dur now : ℤ) :
    updateTxnValid (markUnattendedUpdates c remarks dur now) = true := by
  unfold updateTxnValid markUnattendedUpdates
  split_ifs <;> rfl

theorem updateTxnValid_markCallback (c : Txn) (remarks : Option String)
    (dur now : ℤ) :
    updateTxnValid (markCallbackUpdates c remarks dur now) = false := by
  unfold updateTxnValid markCallbackUpdates
  split_ifs <;> rfl

theorem handleAcceptUpsell_eq (c : Txn) (sku : String) (cp : Option ℚ)
    (prods : List Product) (now : ℤ) :
    handleAcceptUpsell c sku cp prods now =
      applyUpdate c (acceptUpsellUpdates c sku cp prods) now := by
  simp [handleAcceptUpsell, putTransaction, updateTxnValid_acceptUpsell]

theorem handleEndCall_eq (c : Txn) (remarks : Option String) (dur now : ℤ) :
    handleEndCall c remarks dur now =
      applyUpdate c (endCallUpdates c remarks dur now) now := by
  simp [handleEndCall, putTransaction, updateTxnValid_endCall]

theorem handleMarkUnattended_eq (c : Txn) (remarks : Option String)
    (dur now : ℤ) :
    handleMarkUnattended c remarks dur now =
      applyUpdate c (markUnattendedUpdates c remarks dur now) now := by
  simp [handleMarkUnattended, putTransaction, updateTxnValid_markUnattended]

theorem handleMarkCallback_eq (c : Txn) (remarks : Option String)
    (dur now : ℤ) :
    handleMarkCallback c remarks dur now = c := by
  simp [handleMarkCallback, putTransaction, updateTxnValid_markCallback]

/-- Milliseconds per day; the epoch of the time scale is a local midnight,
so `setHours(0,0,0,0)` floors a timestamp to a multiple of `dayMs`. -/
def dayMs : ℤ := 86400000

/-- Local midnight of the day containing `t`
(JavaScript `new Date(t).setHours(0,0,0,0)`). -/
def dayStart (t : ℤ) : ℤ :=
  dayMs * Int.ediv t dayMs

/-- A row of the `calls` table (`shared/schema.ts`), as produced by
`createCall`. -/
structure Call where
  date : ℤ
  customerName : String
  phone : String
  awb : String
  orderSku : String
  quantity : ℤ
  currentPrice : ℚ
  shippingFee : ℚ
  address : String
  status : String
  callType : String
  agentId : Option String
deriving DecidableEq

/-- `DatabaseStorage.checkDuplicateCall` (`unnamed/part_000`, lines
202–215): select a call whose phone is exactly `phone` and whose date lies
between `setHours(0,0,0,0)` and `setHours(23,59,59,999)` of `date`. -/
def checkDuplicateCall (phone : String) (date : ℤ) (calls : List Call) : Option Call :=
  let ds := dayStart date
  let de := ds + dayMs - 1
  calls.find? (fun c => c.phone == phone && decide (ds ≤ c.date) && decide (c.date ≤ de))

/-- `DatabaseStorage.getAllAgents` (`unnamed/part_000`, lines 114–116):
all users whose role is `agent` — with no filter on the active flag —
ordered by username ascending. -/
def getAllAgents (users : List User) : List User :=
  sortByUsername (users.filter (fun u => u.role == "agent"))
where
  insertByUsername (u : User) : List User → List User
    | [] => [u]
    | v :: vs =>
      if v.username < u.username then v :: insertByUsername u vs
      else u :: v :: vs
  sortByUsername : List User → List User
    | [] => []
    | u :: us => insertByUsername u (sortByUsername us)

/-- Modelled from the spec: the "currently active agent list" named by the
round-robin description — agents that are active.  Used only to compare
the specified behaviour against `getAllAgents`, which ignores `isActive`. -/
def activeAgents (users : List User) : List User :=
  users.filter (fun u => u.role == "agent" && u.isActive)

/-- The round-robin pick of the CSV import
(`agents.length > 0 ? agents[agentIndex % agents.length].id : null`). -/
def roundRobinAgent (agents : List User) (i : ℕ) : Option String :=
  if h : 0 < agents.length then
    some (agents.get ⟨i % agents.length, Nat.mod_lt i h⟩).id
  else none

/-- A parsed CSV data row as consumed by `POST /api/calls/import`
(header-normalised; a missing text cell is the empty string, matching
`row.name || row.NAME || ''`). -/
structure CsvRow where
  date : ℤ
  name : String
  phone : String
  awb : String
  order : String
  qty : ℤ
  price : ℚ
  sf : ℚ
  address : String
deriving DecidableEq

/-- A per-row import error (`results.errors` entry): 1-based row index,
message, and the raw row data. -/
structure ImportError where
  row : ℕ
  message : String
  data : CsvRow
deriving DecidableEq

/-- The mutable state of the import loop in `server/routes.ts`
(lines 176–235): the `results` counters, the calls table, the round-robin
cursor `agentIndex`, and the 0-based loop index `i`. -/
structure ImportState where
  success : ℕ
  duplicates : ℕ
  errors : List ImportError
  calls : List Call
  agentIndex : ℕ
  rowIndex : ℕ
deriving DecidableEq

/-- The call data built from a CSV row (`server/routes.ts`, lines
191–203), including the round-robin agent assignment taken at the current
cursor; `createCall` stores it with the schema default status `new`. -/
def rowCallData (agents : List User) (agentIndex : ℕ) (row : CsvRow) : Call :=
  { date := row.date
    customerName := row.name
    phone := row.phone
    awb := row.awb
    orderSku := row.order
    quantity := row.qty
    currentPrice := row.price
    shippingFee := row.sf
    address := row.address
    status := "new"
    callType := "confirmation"
    agentId := roundRobinAgent agents agentIndex }

/-- The required-field validation of the import
(`!callData.customerName || !callData.phone || !callData.orderSku`). -/
def rowMissingFields (row : CsvRow) : Bool :=
  row.name == "" || row.phone == "" || row.order == ""

/-- The import error message for a row failing validation. -/
def msgMissingFields : String :=
  "Missing required fields (name, phone, order)"

/-- One iteration of the import loop (`server/routes.ts`, lines 186–233):
a row failing validation is recorded as a 1-based-indexed error, a row
duplicating an existing call is counted as a duplicate, and otherwise the
call is created and both the success counter and the round-robin cursor
advance.  No branch stops the loop. -/
def importStep (agents : List User) (st : ImportState) (row : CsvRow) : ImportState :=
  let callData := rowCallData agents st.agentIndex row
  if rowMissingFields row then
    { st with
      errors := st.errors ++ [⟨st.rowIndex + 1, msgMissingFields, row⟩]
      rowIndex := st.rowIndex + 1 }
  else if (checkDuplicateCall callData.phone callData.date st.calls).isSome then
    { st with
      duplicates := st.duplicates + 1
      rowIndex := st.rowIndex + 1 }
  else
    { st with
      calls := st.calls ++ [callData]
      success := st.success + 1
      agentIndex := st.agentIndex + 1
      rowIndex := st.rowIndex + 1 }

/-- The whole import loop over the parsed rows. -/
def importCalls (agents : List User) (rows : List CsvRow) (st : ImportState) : ImportState :=
  rows.foldl (importStep agents) st

/-- The initial import state over an existing calls table. -/
def initImportState (existing : List Call) : ImportState :=
  ⟨0, 0, [], existing, 0, 0⟩

/-- JavaScript `Math.round`: round half toward positive infinity. -/
def jsRound (q : ℚ) : ℤ :=
  ⌊q + 1 / 2⌋

/-- The `DashboardStats` result shape (`unnamed/part_000`, lines 65–72).
`revenueByDay` pairs a day index (the value of SQL `DATE(created_at)` on
the millisecond time scale) with the summed revenue of that day. -/
structure DashboardStats where
  totalCallsToday : ℕ
  successfulUpsells : ℕ
  revenueToday : ℚ
  conversionRate : ℚ
  callsByStatus : List (String × ℕ)
  revenueByDay : List (ℤ × ℚ)
deriving DecidableEq

/-- Ascending insertion sort of day indices, standing in for the SQL
`ORDER BY DATE(created_at)` of the revenue-by-day query. -/
def sortDays : List ℤ → List ℤ
  | [] => []
  | d :: ds => insertDay d (sortDays ds)
where
  insertDay (d : ℤ) : List ℤ → List ℤ
    | [] => [d]
    | e :: es => if e < d then e :: insertDay d es else d :: e :: es

/-- `DatabaseStorage.getDashboardStats` (`unnamed/part_000`, lines
246–330): today's call count, today's upsell count and revenue, the
zero-guarded conversion rate rounded to two decimals, call counts grouped
by status, and revenue grouped by day over a trailing 7-day window.  The
optional `agentId` scopes every aggregate.  Group-by queries return only
the groups that are present. -/
def getDashboardStats (agentId : Option String)
    (calls : List Call) (txns : List Txn) (now : ℤ) : DashboardStats :=
  let today := dayStart now
  let tomorrow := today + dayMs
  let agentOk : Option String → Bool := fun aid =>
    match agentId with
    | some a => aid == some a
    | none => true
  let callsToday := calls.filter (fun c =>
    decide (today ≤ c.date) && decide (c.date ≤ tomorrow) && agentOk c.agentId)
  let upsellsToday := txns.filter (fun t =>
    decide (today ≤ t.createdAt) && decide (t.createdAt ≤ tomorrow)
      && t.isUpsell && agentOk t.agentId)
  let revenueTxns := txns.filter (fun t =>
    decide (today ≤ t.createdAt) && decide (t.createdAt ≤ tomorrow) && agentOk t.agentId)
  let totalCallsToday := callsToday.length
  let successfulUpsells := upsellsToday.length
  let conversionRate : ℚ :=
    if 0 < totalCallsToday then
      ((successfulUpsells : ℚ) / (totalCallsToday : ℚ)) * 100
    else 0
  let sevenDaysAgo := now - 7 * dayMs
  let recentTxns := txns.filter (fun t =>
    decide (sevenDaysAgo ≤ t.createdAt) && agentOk t.agentId)
  let days := sortDays ((recentTxns.map (fun t => Int.ediv t.createdAt dayMs)).dedup)
  { totalCallsToday := totalCallsToday
    successfulUpsells := successfulUpsells
    revenueToday := (revenueTxns.map (fun t => t.revenue.getD 0)).sum
    conversionRate := (jsRound (conversionRate * 100) : ℚ) / 100
    callsByStatus := callStatusEnum.filterMap (fun s =>
      let n := (callsToday.filter (fun c => c.status == s)).length
      if n = 0 then none else some (s, n))
    revenueByDay := days.map (fun d =>
      (d, ((recentTxns.filter (fun t => Int.ediv t.createdAt dayMs == d)).map
        (fun t => t.revenue.getD 0)).sum)) }

/-- The `GET /api/dashboard/stats` handler (`server/routes.ts`, lines
276–284): an agent-role user is always scoped to their own id, any other
user to the `agentId` query parameter. -/
def dashboardStatsRoute (user : User) (queryAgentId : Option String)
    (calls : List Call) (txns : List Txn) (now : ℤ) : DashboardStats :=
  getDashboardStats (if user.role == "agent" then some user.id else queryAgentId)
    calls txns now

/-! ## Characterisations of the import loop -/

/-- The list of calls created by the import loop from the given rows, when
started over the calls table `cs` with round-robin cursor `n`: rows
failing validation or duplicating an existing call create nothing; every
other row creates its call data, which also becomes visible to the
duplicate checks of the following rows. -/
def createdCalls (agents : List User) : List CsvRow → List Call → ℕ → List Call
  | [], _, _ => []
  | row :: rs, cs, n =>
    if rowMissingFields row then createdCalls agents rs cs n
    else if (checkDuplicateCall row.phone row.date cs).isSome then
      createdCalls agents rs cs n
    else
      rowCallData agents n row ::
        createdCalls agents rs (cs ++ [rowCallData agents n row]) (n + 1)

theorem importCalls_cons (agents : List User) (r : CsvRow) (rs : List CsvRow)
    (st : ImportState) :
    importCalls agents (r :: rs) st = importCalls agents rs (importStep agents st r) :=
  rfl

theorem importCalls_counts (agents : List User) (rows : List CsvRow)
    (st : ImportState) :
    (importCalls agents rows st).success + (importCalls agents rows st).duplicates +
        (importCalls agents rows st).errors.length =
      st.success + st.duplicates + st.errors.length + rows.length := by
  induction rows generalizing st with
  | nil => simp [importCalls]
  | cons r rs ih =>
    rw [importCalls_cons, ih]
    unfold importStep
    dsimp only
    split_ifs <;> simp <;> omega

theorem importCalls_errors (agents : List User) (rows : List CsvRow)
    (st : ImportState) :
    (importCalls agents rows st).errors =
      st.errors ++ (List.enumFrom st.rowIndex rows).filterMap (fun p =>
        if rowMissingFields p.2 then some ⟨p.1 + 1, msgMissingFields, p.2⟩
        else none) := by
  induction rows generalizing st with
  | nil => simp [importCalls]
  | cons r rs ih =>
    rw [importCalls_cons, ih]
    unfold importStep
    dsimp only
    split_ifs with h1 h2
    · simp [List.enumFrom, h1, List.filterMap_cons]
    · simp [List.enumFrom, h1, List.filterMap_cons]
    · simp [List.enumFrom, h1, List.filterMap_cons]

theorem importCalls_calls (agents : List User) (rows : List CsvRow)
    (st : ImportState) :
    (importCalls agents rows st).calls =
      st.calls ++ createdCalls agents rows st.calls st.agentIndex := by
  induction rows generalizing st with
  | nil => simp [importCalls, createdCalls]
  | cons r rs ih =>
    rw [importCalls_cons, ih]
    by_cases h1 : rowMissingFields r
    · have hs : importStep agents st r =
          { st with
            errors := st.errors ++ [⟨st.rowIndex + 1, msgMissingFields, r⟩]
            rowIndex := st.rowIndex + 1 } := by
        simp [importStep, h1]
      rw [hs]
      simp only [createdCalls, h1]
      rfl
    · by_cases h2 : (checkDuplicateCall r.phone r.date st.calls).isSome
      · have hs : importStep agents st r =
            { st with duplicates := st.duplicates + 1, rowIndex := st.rowIndex + 1 } := by
          simp [importStep, rowCallData, h1, h2]
        rw [hs]
        simp only [createdCalls, h1, h2]
        rfl
      · have hs : importStep agents st r =
            { st with
              calls := st.calls ++ [rowCallData agents st.agentIndex r]
              success := st.success + 1
              agentIndex := st.agentIndex + 1
              rowIndex := st.rowIndex + 1 } := by
          simp [importStep, rowCallData, h1, h2]
        rw [hs]
        simp only [createdCalls, h1, h2]
        simp [List.append_assoc]

theorem createdCalls_map_agentId (agents : List User) (rows : List CsvRow)
    (cs : List Call) (n : ℕ) :
    (createdCalls agents rows cs n).map (fun c => c.agentId) =
      (List.range (createdCalls agents rows cs n).length).map
        (fun k => roundRobinAgent agents (n + k)) := by
  induction rows generalizing cs n with
  | nil => simp [createdCalls]
  | cons r rs ih =>
    unfold createdCalls
    split_ifs with h1 h2
    · exact ih cs n
    · exact ih cs n
    · simp only [List.map_cons, List.length_cons, List.range_succ_eq_map,
        List.map_map, Function.comp_def, Nat.add_zero, List.cons.injEq]
      refine ⟨?_, ?_⟩
      · dsimp [rowCallData]
      · rw [ih]
        apply List.map_congr_left
        intro k _
        congr 1
        omega

/-! ## Concrete fixtures for scenarios, witnesses and counterexamples -/

/-- An in-progress call record holding its original order (`AP1` at 500)
and no upsell yet. -/
def txn0 : Txn :=
  { id := "t1", date := 1000, customerName := "Ana", phone := "0917000000"
    awb := none, orderSku := "AP1", quantity := 1, currentPrice := 500
    shippingFee := none, address := none, status := "in_progress"
    callType := "confirmation", agentId := some "u1"
    callStartedAt := some 1000, callEndedAt := none
    callRemarks := none, originalOrderSku := none, originalPrice := none
    newOrderSku := none, newPrice := none, revenue := none, isUpsell := false
    createdAt := 1000, updatedAt := 1000 }

/-- A catalog product priced 800, the upsell target of the scenarios. -/
def prod800 : Product :=
  { id := "p2", sku := "AP2", name := "Premium", price := 800, units := 1
    isActive := true, createdAt := 0 }

/-- A record that already went through one upsell: non-empty baseline. -/
def txnBaseline : Txn :=
  { txn0 with originalOrderSku := some "AP0", originalPrice := some 450 }

/-- A record whose `originalOrderSku` is the empty string: non-null but
falsy in JavaScript. -/
def txnEmptyBaseline : Txn :=
  { txn0 with originalOrderSku := some "" }

/-- An agent-role user, for the dashboard scoping witness. -/
def agentUser : User :=
  { id := "u1", username := "alice", password := "pw", role := "agent"
    isActive := true, createdAt := 0 }

/-- A valid import row (all required fields present). -/
def validRow : CsvRow :=
  { date := 1000, name := "Ana", phone := "0917000000", awb := ""
    order := "SKU1", qty := 1, price := 100, sf := 0, address := "" }

/-- An agent-role user whose active flag is off. -/
def inactiveBob : User :=
  { id := "u9", username := "bob", password := "pw", role := "agent"
    isActive := false, createdAt := 0 }

/-- The five-row import scenario: three valid rows, one duplicate of the
first row (same phone, same calendar day), one row missing its phone. -/
def scenarioRows : List CsvRow :=
  [{ validRow with phone := "0917000001", name := "Ana" },
   { validRow with phone := "0917000002", name := "Bea" },
   { validRow with phone := "0917000003", name := "Cara" },
   { validRow with phone := "0917000001", name := "Dana", date := 2000 },
   { validRow with phone := "", name := "Eva" }]

/-- Ten calls dated inside the dashboard's current day. -/
def callsTen : List Call :=
  List.replicate 10
    { date := 1000, customerName := "X", phone := "p", awb := ""
      orderSku := "SKU1", quantity := 1, currentPrice := 100, shippingFee := 0
      address := "", status := "new", callType := "confirmation"
      agentId := some "u1" }

/-- Three upsell transactions created inside the dashboard's current day. -/
def upsellsThree : List Txn :=
  List.replicate 3 { txn0 with isUpsell := true, createdAt := 1000 }

/-! ## Theorems -/

/-- C1 (amended).  `handleAcceptUpsell` snapshots the pre-upsell
`orderSku`/`currentPrice` into `originalOrderSku`/`originalPrice` when they
are null, and a later upsell leaves a snapshot unchanged provided the
stored `originalOrderSku` is non-null *and non-empty* and `originalPrice`
is non-null.  (The claim's plain "non-null" guard fails: JavaScript `||`
tests truthiness, so an empty-string snapshot is overwritten — see the
counterexample.) -/
theorem acceptUpsell_preserves_first_snapshot (c : Txn) (sku : String)
    (cp : Option ℚ) (prods : List Product) (now : ℤ) :
    (∀ s, c.originalOrderSku = some s → s ≠ "" →
      (handleAcceptUpsell c sku cp prods now).originalOrderSku = c.originalOrderSku) ∧
    (c.originalPrice.isSome →
      (handleAcceptUpsell c sku cp prods now).originalPrice = c.originalPrice) ∧
    (c.originalOrderSku = none →
      (handleAcceptUpsell c sku cp prods now).originalOrderSku = some c.orderSku) ∧
    (c.originalPrice = none →
      (handleAcceptUpsell c sku cp prods now).originalPrice = some c.currentPrice) := by
  refine ⟨?_, ?_, ?_, ?_⟩
  · intro s hs hne
    simp [handleAcceptUpsell_eq, applyUpdate, acceptUpsellUpdates, jsOrStr, hs, hne]
  · intro hp
    obtain ⟨p, hp⟩ := Option.isSome_iff_exists.mp hp
    simp [handleAcceptUpsell_eq, applyUpdate, acceptUpsellUpdates, jsOrPrice, hp]
  · intro h
    simp [handleAcceptUpsell_eq, applyUpdate, acceptUpsellUpdates, jsOrStr, h]
  · intro h
    simp [handleAcceptUpsell_eq, applyUpdate, acceptUpsellUpdates, jsOrPrice, h]

/-- Witness for C1: a second upsell on a record with baseline `AP0`/450
leaves the baseline untouched. -/
theorem acceptUpsell_preserves_first_snapshot_witness :
    (handleAcceptUpsell txnBaseline "AP2" (some 800) [] 2000).originalOrderSku =
      txnBaseline.originalOrderSku ∧
    (handleAcceptUpsell txnBaseline "AP2" (some 800) [] 2000).originalPrice =
      txnBaseline.originalPrice :=
  ⟨(acceptUpsell_preserves_first_snapshot txnBaseline "AP2" (some 800) [] 2000).1
      "AP0" rfl (by decide),
   (acceptUpsell_preserves_first_snapshot txnBaseline "AP2" (some 800) [] 2000).2.1
      (by decide)⟩

/-- Counterexample to C1 as stated: a record whose `originalOrderSku` is
the empty string — non-null — has its snapshot overwritten by the next
upsell, because `call.originalOrderSku || call.orderSku` falls through on
the falsy empty string. -/
theorem acceptUpsell_overwrites_empty_snapshot :
    txnEmptyBaseline.originalOrderSku.isSome ∧
    (handleAcceptUpsell txnEmptyBaseline "AP2" (some 800) [] 2000).originalOrderSku ≠
      txnEmptyBaseline.originalOrderSku := by
  decide

/-- C2 (amended).  `handleAcceptUpsell` always leaves the record flagged
`isUpsell` with `revenue = currentPrice − originalPrice` (the new price
minus the captured baseline), and the concrete 500 → 800 scenario yields
`originalPrice = 500`, `currentPrice = 800`, `revenue = 300`,
`isUpsell = true`.  (As a claim over *every* record with `isUpsell` the
equation fails — see the counterexample.) -/
theorem acceptUpsell_revenue_delta :
    (∀ (c : Txn) (sku : String) (cp : Option ℚ) (prods : List Product) (now : ℤ),
      (handleAcceptUpsell c sku cp prods now).isUpsell = true ∧
      (handleAcceptUpsell c sku cp prods now).originalPrice.isSome ∧
      (handleAcceptUpsell c sku cp prods now).revenue =
        some ((handleAcceptUpsell c sku cp prods now).currentPrice -
          (handleAcceptUpsell c sku cp prods now).originalPrice.getD 0)) ∧
    ((handleAcceptUpsell txn0 "AP2" none [prod800] 2000).originalPrice = some 500 ∧
     (handleAcceptUpsell txn0 "AP2" none [prod800] 2000).currentPrice = 800 ∧
     (handleAcceptUpsell txn0 "AP2" none [prod800] 2000).revenue = some 300 ∧
     (handleAcceptUpsell txn0 "AP2" none [prod800] 2000).isUpsell = true) := by
  constructor
  · intro c sku cp prods now
    refine ⟨?_, ?_, ?_⟩ <;>
      simp [handleAcceptUpsell_eq, applyUpdate, acceptUpsellUpdates, jsOrPrice]
  · refine ⟨by decide, by decide, ?_, by decide⟩
    have hfind : List.find? (fun p => p.sku == "AP2") [prod800] = some prod800 := by
      decide
    rw [handleAcceptUpsell_eq]
    simp only [applyUpdate, acceptUpsellUpdates, jsOrPrice,
      hfind, txn0, prod800, Option.getD_some, Option.getD_none, Option.some.injEq]
    norm_num

/-- Counterexample to C2 as stated: ending a call that holds a plain
(never upsold) order sets `isUpsell = true` while `revenue` and
`originalPrice` stay null, so a record with `isUpsell` true need not
satisfy the revenue equation. -/
theorem endCall_sets_isUpsell_without_revenue :
    (handleEndCall txn0 none 60 3000).isUpsell = true ∧
    (handleEndCall txn0 none 60 3000).revenue = none ∧
    (handleEndCall txn0 none 60 3000).originalPrice = none := by
  decide

/-- C3.  The schema's status enum holds exactly five states and does not
contain `callback`, while the client's Mark Callback flow submits the
status `callback`: the value the feature writes is unrepresentable in
(and rejected by) the schema. -/
theorem callback_status_outside_schema_enum :
    (markCallbackUpdates txn0 none 60 3000).status = some "callback" ∧
    isValidCallStatus "callback" = false ∧
    callStatusEnum = ["new", "in_progress", "called", "unattended", "completed"] := by
  decide

/-- C8 (amended).  For an in-progress call, End Call moves the record to
`completed` exactly when an order (original or upsell) exists and to
`called` otherwise, and in both branches records `callEndedAt` and the
optional remarks.  (The claim's "records `callDuration`" fails: the
client submits the key but the transactions table has no such column, so
no duration is ever persisted — see the counterexample.) -/
theorem endCall_status_and_bookkeeping (c : Txn) (remarks : Option String)
    (dur now : ℤ) (h : c.status = "in_progress") :
    (handleEndCall c remarks dur now).status =
      (if hasOrder c then "completed" else "called") ∧
    (handleEndCall c remarks dur now).callEndedAt = some now ∧
    (handleEndCall c remarks dur now).callRemarks = jsOrNullStr remarks := by
  by_cases hb : hasOrder c <;>
    simp [handleEndCall_eq, endCallUpdates, applyUpdate, hb]

/-- Witness for C8 at a concrete in-progress call with an order. -/
theorem endCall_status_and_bookkeeping_witness :
    txn0.status = "in_progress" ∧
    ((handleEndCall txn0 (some "ok") 60 3000).status =
        (if hasOrder txn0 then "completed" else "called") ∧
     (handleEndCall txn0 (some "ok") 60 3000).callEndedAt = some 3000 ∧
     (handleEndCall txn0 (some "ok") 60 3000).callRemarks = jsOrNullStr (some "ok")) :=
  ⟨rfl, endCall_status_and_bookkeeping txn0 (some "ok") 60 3000 rfl⟩

/-- Counterexample to C8 as stated: two End Calls that submit different
durations (the update objects differ in their `callDuration` key) persist
*identical* records — the duration is dropped against the schema, never
recorded. -/
theorem endCall_drops_submitted_duration :
    endCallUpdates txn0 none 60 3000 ≠ endCallUpdates txn0 none 999 3000 ∧
    handleEndCall txn0 none 60 3000 = handleEndCall txn0 none 999 3000 := by
  decide

/-- C9 (amended).  Both operations leave every order field — `orderSku`,
`currentPrice`, `originalOrderSku`, `originalPrice`, `revenue`,
`isUpsell` — at its prior value.  Mark Unattended sets the status to
`unattended` and records `callEndedAt` and the optional remarks (its
submitted `callDuration` matches no column and is dropped); Mark
Callback's update is rejected wholesale by the schema validation (its
status `callback` is outside the enum), leaving the record entirely
unchanged — the order fields trivially included. -/
theorem mark_operations_preserve_order_fields (c : Txn)
    (remarks : Option String) (dur now : ℤ) :
    ((handleMarkUnattended c remarks dur now).orderSku = c.orderSku ∧
     (handleMarkUnattended c remarks dur now).currentPrice = c.currentPrice ∧
     (handleMarkUnattended c remarks dur now).originalOrderSku = c.originalOrderSku ∧
     (handleMarkUnattended c remarks dur now).originalPrice = c.originalPrice ∧
     (handleMarkUnattended c remarks dur now).revenue = c.revenue ∧
     (handleMarkUnattended c remarks dur now).isUpsell = c.isUpsell ∧
     (handleMarkUnattended c remarks dur now).status = "unattended" ∧
     (handleMarkUnattended c remarks dur now).callEndedAt = some now ∧
     (handleMarkUnattended c remarks dur now).callRemarks = jsOrNullStr remarks) ∧
    handleMarkCallback c remarks dur now = c := by
  constructor
  · by_cases hb : strTruthy c.originalOrderSku <;>
      simp [handleMarkUnattended_eq, markUnattendedUpdates, applyUpdate, hb]
  · exact handleMarkCallback_eq c remarks dur now

/-- Counterexample to C9 (and witness of the C3 bug's consequence): Mark
Callback on an in-progress call changes nothing at all — in particular
the status does not become `callback` and no end-of-call bookkeeping is
written, contrary to the claim's "change the status (and the
end-of-call bookkeeping fields)". -/
theorem markCallback_rejected_changes_nothing :
    handleMarkCallback txn0 (some "call later") 60 3000 = txn0 ∧
    txn0.status ≠ "callback" ∧
    (handleMarkCallback txn0 (some "call later") 60 3000).callEndedAt = none := by
  decide

/-- C10.  For an agent-role user the dashboard statistics are scoped to
the user's own id and the `agentId` query parameter has no effect: two
requests differing only in that parameter return the same statistics. -/
theorem dashboard_stats_agent_scoped (u : User) (q1 q2 : Option String)
    (calls : List Call) (txns : List Txn) (now : ℤ) (h : u.role = "agent") :
    dashboardStatsRoute u q1 calls txns now = dashboardStatsRoute u q2 calls txns now := by
  simp [dashboardStatsRoute, h]

/-- Witness for C10: an agent-role user, with and without an `agentId`
query parameter. -/
theorem dashboard_stats_agent_scoped_witness :
    dashboardStatsRoute agentUser none [] [] 0 =
      dashboardStatsRoute agentUser (some "u2") [] [] 0 :=
  dashboard_stats_agent_scoped agentUser none (some "u2") [] [] 0 rfl

/-- C4.  `checkDuplicateCall` returns a hit exactly when some stored call
has the same phone and a date inside the local calendar day of the
supplied date — from local midnight (inclusive) to the following local
midnight (exclusive) — and any returned record is such a stored call. -/
theorem checkDuplicateCall_same_day_iff (p : String) (d : ℤ) (calls : List Call) :
    ((checkDuplicateCall p d calls).isSome ↔
      ∃ c ∈ calls, c.phone = p ∧ dayStart d ≤ c.date ∧ c.date < dayStart d + dayMs) ∧
    (∀ c, checkDuplicateCall p d calls = some c →
      c ∈ calls ∧ c.phone = p ∧ dayStart d ≤ c.date ∧ c.date < dayStart d + dayMs) := by
  constructor
  · simp only [checkDuplicateCall, List.find?_isSome]
    constructor
    · rintro ⟨c, hc, hcond⟩
      simp only [Bool.and_eq_true, beq_iff_eq, decide_eq_true_eq] at hcond
      exact ⟨c, hc, hcond.1.1, hcond.1.2, by omega⟩
    · rintro ⟨c, hc, h1, h2, h3⟩
      refine ⟨c, hc, ?_⟩
      simp only [Bool.and_eq_true, beq_iff_eq, decide_eq_true_eq]
      exact ⟨⟨h1, h2⟩, by omega⟩
  · intro c hc
    simp only [checkDuplicateCall] at hc
    have hmem := List.mem_of_find?_eq_some hc
    have hcond := List.find?_some hc
    simp only [Bool.and_eq_true, beq_iff_eq, decide_eq_true_eq] at hcond
    exact ⟨hmem, hcond.1.1, hcond.1.2, by omega⟩

/-- C5 (amended).  The sequence of agent ids assigned to the calls that a
bulk import creates is the round-robin sequence over `getAllAgents` — the
users with role `agent`, ordered by username, with no filter on the
active flag: the k-th created call receives agent `k mod N` from that
list, and no agent (null) when the list is empty.  (The claim's
"currently active agent list" fails: an inactive agent is still assigned
— see the counterexample.) -/
theorem import_round_robin_assignment (users : List User) (rows : List CsvRow)
    (existing : List Call) :
    ((importCalls (getAllAgents users) rows (initImportState existing)).calls.drop
        existing.length).map (fun c => c.agentId) =
      (List.range ((importCalls (getAllAgents users) rows
        (initImportState existing)).calls.drop existing.length).length).map
        (fun k => roundRobinAgent (getAllAgents users) k) := by
  have hc := importCalls_calls (getAllAgents users) rows (initImportState existing)
  rw [show (initImportState existing).calls = existing from rfl,
    show (initImportState existing).agentIndex = 0 from rfl] at hc
  rw [hc, List.drop_left]
  have hm := createdCalls_map_agentId (getAllAgents users) rows existing 0
  simpa using hm

/-- Counterexample to C5 as stated: with a single *inactive* agent-role
user the active-agent list is empty, so per the claim no assignment
should happen — yet the import assigns that inactive agent. -/
theorem import_assigns_inactive_agent :
    activeAgents [inactiveBob] = [] ∧
    (importCalls (getAllAgents [inactiveBob]) [validRow]
        (initImportState [])).calls.map (fun c => c.agentId) = [some "u9"] := by
  decide

/-- C6.  Bulk import is best-effort: every row is classified as exactly
one of success, duplicate, or error (so the three counts always sum to
the row count and no row aborts the rest); the error list consists
precisely of the rows missing a required field, keyed by their 1-based
input position with the message and raw row data.  The 3-valid +
1-duplicate + 1-missing-phone scenario yields `success = 3`,
`duplicates = 1`, and the single error keyed `row 5`. -/
theorem import_best_effort (agents : List User) (rows : List CsvRow)
    (existing : List Call) :
    ((importCalls agents rows (initImportState existing)).success +
        (importCalls agents rows (initImportState existing)).duplicates +
        (importCalls agents rows (initImportState existing)).errors.length =
      rows.length) ∧
    ((importCalls agents rows (initImportState existing)).errors =
      (List.enumFrom 0 rows).filterMap (fun q =>
        if rowMissingFields q.2 then some ⟨q.1 + 1, msgMissingFields, q.2⟩
        else none)) ∧
    ((importCalls (getAllAgents [inactiveBob]) scenarioRows
        (initImportState [])).success = 3 ∧
     (importCalls (getAllAgents [inactiveBob]) scenarioRows
        (initImportState [])).duplicates = 1 ∧
     (importCalls (getAllAgents [inactiveBob]) scenarioRows
        (initImportState [])).errors =
       [⟨5, msgMissingFields, { validRow with phone := "", name := "Eva" }⟩]) := by
  refine ⟨?_, ?_, by decide, by decide, by decide⟩
  · have h := importCalls_counts agents rows (initImportState existing)
    simpa [initImportState] using h
  · have h := importCalls_errors agents rows (initImportState existing)
    simpa [initImportState] using h

/-- C7.  The dashboard conversion rate is upsells divided by total calls,
times 100, rounded to two decimal places (round half up), whenever the
period has at least one call, and is 0 when the period has no calls — the
division is guarded by the zero test. -/
theorem conversion_rate_zero_guarded (agentId : Option String)
    (calls : List Call) (txns : List Txn) (now : ℤ) :
    (0 < (getDashboardStats agentId calls txns now).totalCallsToday →
      (getDashboardStats agentId calls txns now).conversionRate =
        ((jsRound ((((getDashboardStats agentId calls txns now).successfulUpsells : ℚ) /
          ((getDashboardStats agentId calls txns now).totalCallsToday : ℚ) * 100) * 100)) : ℚ) / 100) ∧
    ((getDashboardStats agentId calls txns now).totalCallsToday = 0 →
      (getDashboardStats agentId calls txns now).conversionRate = 0) := by
  constructor
  · intro h
    dsimp only [getDashboardStats] at h ⊢
    rw [if_pos h]
  · intro h
    dsimp only [getDashboardStats] at h ⊢
    rw [h]
    norm_num [jsRound]

/-- Witness for C7: a day with 10 calls and 3 upsell transactions reports
a conversion rate of exactly 30. -/
theorem conversion_rate_zero_guarded_witness :
    0 < (getDashboardStats none callsTen upsellsThree 5000).totalCallsToday ∧
    (getDashboardStats none callsTen upsellsThree 5000).conversionRate = 30 := by
  have h0 : 0 < (getDashboardStats none callsTen upsellsThree 5000).totalCallsToday := by
    decide
  refine ⟨h0, ?_⟩
  have h := (conversion_rate_zero_guarded none callsTen upsellsThree 5000).1 h0
  have h10 : (getDashboardStats none callsTen upsellsThree 5000).totalCallsToday = 10 := by
    decide
  have h3 : (getDashboardStats none callsTen upsellsThree 5000).successfulUpsells = 3 := by
    decide
  rw [h, h10, h3]
  unfold jsRound
  norm_num

end CultivasiaCRM
